import Mathlib

/-!
Formal model of the `Charset_analysis` repository (`check_csv_charset.py`):
a multi-stage file-encoding classifier, a folder discoverer, a conversion
engine with backup/rollback, per-folder aggregation and worker-count
clamping.  Python byte strings are modelled as `List Nat`, decoded text as a
list of Unicode code points, the filesystem as a finite association list
from path strings to byte contents, and the external statistical detector
(`chardet`/`cchardet`) as an oracle function passed in as a parameter.
Python float comparisons against the fixed thresholds (0.70, 0.40, 0.20,
0.98, 0.30) are written as exact rational comparisons; for the byte-ratio
heuristics they are expressed by integer cross-multiplication, which is
exact for the rationals involved.
-/

/-- Byte strings (Python `bytes`): each entry is a byte value 0..255. -/
abbrev Bytes := List Nat

/-- Decoded text (Python `str`): a list of Unicode code points. -/
abbrev Text := List Nat

/-- Python `str.lower()` restricted to ASCII case folding, which is all the
encoding labels used by the script require. -/
def lower (s : String) : String := ⟨s.data.map Char.toLower⟩

/-- Python `str.startswith(pre)`. -/
def startswith (s pre : String) : Bool := pre.data.isPrefixOf s.data

/-- Python `str.endswith(post)`. -/
def endswith (s post : String) : Bool := post.data.isSuffixOf s.data

/-- Model of `_detect_bom` (check_csv_charset.py lines 141-153): recognize the
five standard BOM byte prefixes, testing the longer UTF-32 patterns before the
UTF-16 prefixes they extend, exactly in the source's order. -/
def detect_bom (sample : Bytes) : Option String :=
  if [0xEF, 0xBB, 0xBF].isPrefixOf sample then some "utf-8-sig"
  else if [0xFF, 0xFE, 0x00, 0x00].isPrefixOf sample then some "utf-32-le"
  else if [0x00, 0x00, 0xFE, 0xFF].isPrefixOf sample then some "utf-32-be"
  else if [0xFF, 0xFE].isPrefixOf sample then some "utf-16-le"
  else if [0xFE, 0xFF].isPrefixOf sample then some "utf-16-be"
  else none

/-- Model of `_guess_utf16_no_bom` (lines 155-168).  `even_zeros` counts NUL
bytes at even offsets, `odd_zeros` at odd offsets, `half = max(1, len // 2)`.
The float tests `zeros / half > 0.40` and `zeros / half < 0.20` are written as
the exact cross-multiplied integer comparisons `5 * zeros > 2 * half` and
`5 * zeros < half`. -/
def guess_utf16_no_bom (sample : Bytes) : Option String :=
  if sample.length < 4 then none
  else
    let even_zeros := sample.enum.countP (fun p => p.1 % 2 == 0 && p.2 == 0)
    let odd_zeros := sample.enum.countP (fun p => p.1 % 2 == 1 && p.2 == 0)
    let half := max 1 (sample.length / 2)
    if 5 * odd_zeros > 2 * half ∧ 5 * even_zeros < half then some "utf-16-le"
    else if 5 * even_zeros > 2 * half ∧ 5 * odd_zeros < half then some "utf-16-be"
    else none

/-- Model of `_is_mostly_ascii` (lines 170-174) at its default threshold
`thresh = 0.98`: at least 98% of the sampled bytes are below 0x80.  The float
test `ascii_bytes / len >= 0.98` is the exact integer comparison
`100 * ascii_bytes >= 98 * len`. -/
def is_mostly_ascii (sample : Bytes) : Bool :=
  if sample.isEmpty then false
  else decide (100 * sample.countP (fun b => decide (b < 0x80)) ≥ 98 * sample.length)

/-- Model of `_is_binary_like` (lines 176-181) at its default threshold
`nul_thresh = 0.30`: at least 30% of the sampled bytes are NUL.  The float
test `nul_ratio >= 0.30` is the exact integer comparison
`10 * count0 >= 3 * len`. -/
def is_binary_like (sample : Bytes) : Bool :=
  if sample.isEmpty then false
  else decide (10 * sample.count 0 ≥ 3 * sample.length)

/-- Python `res.get('encoding') or "unknown"`: a missing/None or empty
(falsy) encoding string falls back to `"unknown"`. -/
def orUnknown : Option String → String
  | none => "unknown"
  | some s => if s = "" then "unknown" else s

/-- The statistical detector (`chardet.detect`) as an oracle: from a byte
sample it produces an optional encoding name and an optional confidence in
[0, 1].  It is external to the repository, so every theorem quantifies over
it (or pins a concrete oracle in a counterexample). -/
abbrev Chardet := Bytes → Option String × Option ℚ

/-- Outcome of `detect_encoding`: the label, the confidence percentage, and
the trace of content reads issued, each as an `(offset, length)` pair, in
order.  The trace makes the I/O-budget claims of the spec statable. -/
structure DetectResult where
  encoding : String
  confidence : ℚ
  reads : List (Nat × Nat)
deriving DecidableEq

/-- Model of `detect_encoding` (lines 184-275).  `file` is the file's byte
content, so `fsize = file.length`; a read of `n` bytes at offset `o` yields
`(file.drop o).take n` and is recorded as `(o, n)` in the trace.  The
`try/except` wrapper (line 274, returning an `error:` label) is unreachable
in the model because modelled reads cannot fail, and the inner
`try/except` around the tail read likewise cannot fail. -/
def detect_encoding (chardet : Chardet) (file : Bytes) (sample_size : Nat)
    (do_second_pass : Bool) (second_pass_factor : Nat)
    (min_confidence_first_pass : ℚ) : DetectResult :=
  let fsize := file.length
  if fsize = 0 then ⟨"unknown", 0, []⟩
  else
    let head := file.take (min sample_size fsize)
    let headRead : Nat × Nat := (0, min sample_size fsize)
    match detect_bom head with
    | some bom_enc => ⟨bom_enc, 100, [headRead]⟩
    | none =>
      let head_res := chardet head
      let head_enc := orUnknown head_res.1
      let head_conf := head_res.2.getD 0
      if fsize ≤ sample_size then
        -- small file: the head already holds all bytes
        if head_enc ≠ "unknown" then ⟨head_enc, head_conf * 100, [headRead]⟩
        else
          match guess_utf16_no_bom head with
          | some g => ⟨g, 95, [headRead]⟩
          | none =>
            if is_mostly_ascii head then ⟨"ascii", 99, [headRead]⟩
            else if is_binary_like head then ⟨"binary", 100, [headRead]⟩
            else ⟨"unknown", 0, [headRead]⟩
      else
        if min_confidence_first_pass ≤ head_conf then
          ⟨head_enc, head_conf * 100, [headRead]⟩
        else
          let tailRead : Nat × Nat := (fsize - sample_size, sample_size)
          let tail := (file.drop (fsize - sample_size)).take sample_size
          let combined := if tail = [] then head else head ++ tail
          let comb_res := chardet combined
          let comb_enc := orUnknown comb_res.1
          let comb_conf := comb_res.2.getD 0
          if min_confidence_first_pass ≤ comb_conf ∧ comb_enc ≠ "unknown" then
            ⟨comb_enc, comb_conf * 100, [headRead, tailRead]⟩
          else
            if do_second_pass then
              let bigRead : Nat × Nat := (0, min fsize (sample_size * second_pass_factor))
              let big := file.take (min fsize (sample_size * second_pass_factor))
              match detect_bom big with
              | some bom2 => ⟨bom2, 100, [headRead, tailRead, bigRead]⟩
              | none =>
                let big_res := chardet big
                let big_enc := orUnknown big_res.1
                let big_conf := big_res.2.getD 0
                if big_enc ≠ "unknown" then
                  ⟨big_enc, big_conf * 100, [headRead, tailRead, bigRead]⟩
                else
                  match guess_utf16_no_bom big with
                  | some g => ⟨g, 95, [headRead, tailRead, bigRead]⟩
                  | none =>
                    if is_mostly_ascii big then ⟨"ascii", 99, [headRead, tailRead, bigRead]⟩
                    else if is_binary_like big then ⟨"binary", 100, [headRead, tailRead, bigRead]⟩
                    else ⟨"unknown", 0, [headRead, tailRead, bigRead]⟩
            else ⟨"unknown", 0, [headRead, tailRead]⟩

/-- A flat filesystem: a finite association list from path strings to byte
contents.  `convert_file_encoding` and `rollback_backups` act on it. -/
abbrev FS := List (String × Bytes)

/-- Content of the file at path `p`, if it exists. -/
def fsLookup (fs : FS) (p : String) : Option Bytes :=
  (fs.find? (fun e => e.1 == p)).map (fun e => e.2)

/-- Create or overwrite the file at path `p` with content `v`. -/
def fsSet (fs : FS) (p : String) (v : Bytes) : FS :=
  if fs.any (fun e => e.1 == p) then
    fs.map (fun e => if e.1 == p then (p, v) else e)
  else fs ++ [(p, v)]

/-- Delete the file at path `p`. -/
def fsDel (fs : FS) (p : String) : FS := fs.filter (fun e => e.1 != p)

/-- Index of the last `'.'` in a character list (Python `str.rfind('.')`),
`none` when there is no dot. -/
def lastDotIdx (cs : List Char) : Option Nat :=
  cs.enum.foldl (fun acc q => if q.2 = '.' then some q.1 else acc) none

/-- Model of `pathlib.PurePath.suffix` for a file name: the final
dot-component `name[i:]` when the last dot satisfies `0 < i < len - 1`,
otherwise the empty string. -/
def path_suffix (name : String) : String :=
  match lastDotIdx name.data with
  | some i => if 0 < i ∧ i < name.data.length - 1 then ⟨name.data.drop i⟩ else ""
  | none => ""

/-- Model of `pathlib.PurePath.with_suffix`: replace the suffix (as defined
by `path_suffix`) with `suf`; a name without a suffix just gets `suf`
appended. -/
def with_suffix (name : String) (suf : String) : String :=
  match lastDotIdx name.data with
  | some i =>
    if 0 < i ∧ i < name.data.length - 1 then (⟨name.data.take i⟩ : String) ++ suf
    else name ++ suf
  | none => name ++ suf

/-- The backup path used by `convert_file_encoding` (line 300):
`file_path.with_suffix(file_path.suffix + '.bak')`. -/
def backup_path (p : String) : String := with_suffix p (path_suffix p ++ ".bak")

/-- Model of `convert_file_encoding` (lines 277-314) acting on the
filesystem.  `decode` is Python's strict decoder for `source_encoding` and
`encode` the strict encoder for `target_encoding` (both external codecs,
passed as parameters; `none` models a raised Unicode error).  Python error
messages carry exception details (`str(e)[:50]`) that the model elides.

Key ordering, exactly as in the source: the full read/decode happens first;
then, on the convert path, the optional `shutil.copy2` backup; then
`open(file_path, 'w', ...)` — which truncates the file at open time, BEFORE
any encoding of the content is attempted — and finally `f.write(content)`,
whose strict encoding either fails (leaving the file truncated) or succeeds
and replaces the content. -/
def convert_file_encoding (decode : Bytes → Option Text) (encode : Text → Option Bytes)
    (target_encoding source_encoding : String) (backup : Bool)
    (p : String) (fs : FS) : (Bool × String) × FS :=
  if lower source_encoding = lower target_encoding then
    ((true, "already_target"), fs)
  else if source_encoding = "unknown" ∨ source_encoding = "binary"
      ∨ startswith source_encoding "error" then
    ((false, "Cannot convert from " ++ source_encoding), fs)
  else
    match fsLookup fs p with
    | none => ((false, "Error"), fs)
    | some bytes =>
      match decode bytes with
      | none => ((false, "Decode error"), fs)
      | some content =>
        let fs1 := if backup then fsSet fs (backup_path p) bytes else fs
        let fs2 := fsSet fs1 p []
        match encode content with
        | none => ((false, "Encode error"), fs2)
        | some out =>
          ((true, "Converted from " ++ source_encoding ++ " to " ++ target_encoding),
            fsSet fs2 p out)

/-- Model of `rollback_backups` (lines 472-485): every file matching the
case-sensitive recursive glob `*.csv.bak` is moved (`shutil.move`,
overwriting) to its name with the final `.bak` suffix removed
(`backup_file.with_suffix('')`).  `pathlib` glob matching is case-sensitive
on POSIX, the same assumption the script's discovery makes when it globs
`*.csv` and `*.CSV` separately.  Returns `(restored, failed)` and the new
filesystem; modelled moves cannot fail, so `failed = 0`. -/
def rollback_backups (fs : FS) : (Nat × Nat) × FS :=
  let backups := (fs.filter (fun e => endswith e.1 ".csv.bak")).map (fun e => e.1)
  let fs2 := backups.foldl (fun acc b =>
    match fsLookup acc b with
    | some v => fsSet (fsDel acc b) (with_suffix b "") v
    | none => acc) fs
  ((backups.length, 0), fs2)

/-- Strict `latin-1` (iso-8859-1) decoding: every byte maps to the code
point of the same value; it never fails. -/
def latin1_decode (bs : Bytes) : Option Text := some bs

/-- Strict `ascii` encoding: succeeds exactly when every code point is below
128, and then maps each code point to the byte of the same value. -/
def ascii_encode (cs : Text) : Option Bytes :=
  if cs.all (fun c => decide (c < 128)) then some cs else none

/-- Strict `utf-8` encoding, restricted to code points below 0x800 (all the
theorems below use only such inputs): one byte below 0x80, two bytes
otherwise. -/
def utf8_encode (cs : Text) : Option Bytes :=
  some (cs.flatMap (fun c => if c < 0x80 then [c] else [0xC0 + c / 64, 0x80 + c % 64]))

/-- One entry of `folder_result['files']` as consumed by the conversion
engine: the file's path and its recorded encoding label. -/
structure ConvFile where
  path : String
  encoding : String
deriving DecidableEq

/-- Conversion statistics for one folder (the `stats` dict built by
`convert_folder_files`, lines 328-336); `by_encoding` is the
`defaultdict(int)` histogram as an association list in first-seen order. -/
structure ConvStats where
  total : Nat
  converted : Nat
  skipped : Nat
  failed : Nat
  already_target : Nat
  failed_files : List (String × String)
  by_encoding : List (String × Nat)
deriving DecidableEq

/-- Increment key `k` in an association-list histogram (Python
`defaultdict(int)`: `m[k] += 1`). -/
def bump (m : List (String × Nat)) (k : String) : List (String × Nat) :=
  if m.any (fun e => e.1 == k) then
    m.map (fun e => if e.1 == k then (e.1, e.2 + 1) else e)
  else m ++ [(k, 1)]

/-- One iteration of the loop in `convert_folder_files` (lines 343-382):
either the dry-run simulation branch or the actual conversion branch,
updating the statistics and (in the actual branch) the filesystem.
`decodeOf`/`encodeOf` give the strict codec for each encoding label. -/
def convert_folder_step (decodeOf : String → Bytes → Option Text)
    (encodeOf : String → Text → Option Bytes) (target_encoding : String)
    (dry_run : Bool) (backup : Bool)
    (acc : ConvStats × FS) (file : ConvFile) : ConvStats × FS :=
  let stats := acc.1
  let fs := acc.2
  let source_encoding := file.encoding
  if dry_run then
    if lower source_encoding = lower target_encoding then
      ({ stats with already_target := stats.already_target + 1 }, fs)
    else if source_encoding = "unknown" ∨ source_encoding = "binary"
        ∨ startswith source_encoding "error" then
      ({ stats with skipped := stats.skipped + 1 }, fs)
    else
      ({ stats with converted := stats.converted + 1,
                    by_encoding := bump stats.by_encoding source_encoding }, fs)
  else
    let r := convert_file_encoding (decodeOf source_encoding) (encodeOf target_encoding)
        target_encoding source_encoding backup file.path fs
    let success := r.1.1
    let message := r.1.2
    if success then
      if message = "already_target" then
        ({ stats with already_target := stats.already_target + 1 }, r.2)
      else
        ({ stats with converted := stats.converted + 1,
                      by_encoding := bump stats.by_encoding source_encoding }, r.2)
    else
      ({ stats with failed := stats.failed + 1,
                    failed_files := stats.failed_files ++ [(file.path, message)] }, r.2)

/-- Model of `convert_folder_files` (lines 318-409): fold the per-file step
over the folder's file list, starting from zeroed statistics with
`total = len(files)`. -/
def convert_folder_files (decodeOf : String → Bytes → Option Text)
    (encodeOf : String → Text → Option Bytes) (files : List ConvFile)
    (target_encoding : String) (dry_run : Bool) (backup : Bool)
    (fs : FS) : ConvStats × FS :=
  files.foldl (convert_folder_step decodeOf encodeOf target_encoding dry_run backup)
    (⟨files.length, 0, 0, 0, 0, [], []⟩, fs)

/-- The per-folder aggregation counters of `analyze_all_subfolders`
(`res` skeleton, lines 594-602): detected count, error count and the
encoding histogram. -/
structure FolderAgg where
  detected : Nat
  errors : Nat
  encodings : List (String × Nat)
deriving DecidableEq

/-- Model of folding one completed record into its folder result
(lines 657-661): a truthy label that does not start with `error` and is not
`"unknown"` counts as detected and feeds the histogram; everything else
(including the empty string, which is falsy in Python) counts as an error. -/
def fold_record (res : FolderAgg) (encoding : String) : FolderAgg :=
  if encoding ≠ "" ∧ ¬ startswith encoding "error" ∧ encoding ≠ "unknown" then
    { res with detected := res.detected + 1,
               encodings := bump res.encodings encoding }
  else { res with errors := res.errors + 1 }

/-- Model of `DEFAULT_JOBS` (line 36): `max(1, (os.cpu_count() or 1) // 2)`,
taking the already-defaulted cpu count. -/
def DEFAULT_JOBS (cpu : Nat) : Nat := max 1 (cpu / 2)

/-- Model of the worker-count decision in `analyze_all_subfolders`
(lines 626-638).  `cpu_count` is `os.cpu_count()` (`none` when
undetermined, defaulted to 1 by `or 1`); `jobs` is the `-j` argument
(`none`, zero and the unrepresentable negative values all fall back to
`DEFAULT_JOBS`).  Returns the effective `max_workers` and whether the
clamp notice is printed. -/
def decide_workers (jobs : Option Nat) (cpu_count : Option Nat)
    (total_files : Nat) : Nat × Bool :=
  let cpu := cpu_count.getD 1
  let requested := match jobs with
    | some j => if 0 < j then j else DEFAULT_JOBS cpu
    | none => DEFAULT_JOBS cpu
  let capped := min requested (min (cpu * 2) total_files)
  (max 1 capped, decide (capped < requested))

/-- A directory tree: the files directly in the directory (by name) and the
named immediate subdirectories. -/
inductive DirTree where
  | node (files : List String) (subdirs : List (String × DirTree))
deriving Inhabited

/-- The files directly contained in a directory. -/
def DirTree.files : DirTree → List String
  | .node fs _ => fs

/-- The named immediate subdirectories of a directory. -/
def DirTree.subdirs : DirTree → List (String × DirTree)
  | .node _ ss => ss

/-- Name match for the glob pattern `*.csv` (pathlib glob matching is
case-sensitive on POSIX; the script relies on that by globbing `*.csv` and
`*.CSV` separately). -/
def matches_lower_csv (n : String) : Bool := endswith n ".csv"

/-- Name match for the glob pattern `*.CSV`. -/
def matches_upper_csv (n : String) : Bool := endswith n ".CSV"

/-- `list(dir.glob('*.csv')) + list(dir.glob('*.CSV'))`: the non-recursive
CSV listing of one directory, with `pre` the path prefix of that directory. -/
def glob_direct (pre : String) (t : DirTree) : List String :=
  (t.files.filter matches_lower_csv).map (fun n => pre ++ n) ++
    (t.files.filter matches_upper_csv).map (fun n => pre ++ n)

mutual

/-- `list(dir.rglob(pattern))`: recursive matching, a directory's own files
first, then its subdirectories in listing order. -/
def rglobT (pred : String → Bool) (pre : String) : DirTree → List String
  | .node fs subs => (fs.filter pred).map (fun n => pre ++ n) ++ rglobL pred pre subs

/-- Recursive glob over a list of named subdirectories. -/
def rglobL (pred : String → Bool) (pre : String) : List (String × DirTree) → List String
  | [] => []
  | (d, t) :: rest => rglobT pred (pre ++ d ++ "/") t ++ rglobL pred pre rest

end

/-- `list(sub.rglob('*.csv')) + list(sub.rglob('*.CSV'))`: the recursive CSV
listing used by the `"any"` mode. -/
def csv_files_any (pre : String) (t : DirTree) : List String :=
  rglobT matches_lower_csv pre t ++ rglobT matches_upper_csv pre t

/-- Code-point comparison of characters (Python string ordering). -/
def charLt (a b : Char) : Bool := decide (a.toNat < b.toNat)

/-- Lexicographic comparison of strings by code point, as Python `sorted`
uses on the subfolder paths. -/
def strLt : List Char → List Char → Bool
  | [], [] => false
  | [], _ :: _ => true
  | _ :: _, [] => false
  | a :: as, b :: bs => if a = b then strLt as bs else charLt a b

/-- Stable insertion into a name-sorted list of subdirectories. -/
def insertByName (x : String × DirTree) :
    List (String × DirTree) → List (String × DirTree)
  | [] => [x]
  | y :: ys => if strLt x.1.data y.1.data then x :: y :: ys else y :: insertByName x ys

/-- `sorted(subfolders)`: sort the immediate subdirectories by name. -/
def sortByName : List (String × DirTree) → List (String × DirTree)
  | [] => []
  | x :: xs => insertByName x (sortByName xs)

/-- Model of `count_total_csv_files` (lines 503-550): if the top directory
directly contains CSV files, it is itself the single folder (named `""`
here, standing for the root); otherwise its immediate subdirectories are
optionally filtered by the `underscore` pattern, sorted by name, and each is
scanned (recursively in `"any"` mode, else only inside `bak_folder`),
keeping folders with at least one match and accumulating the file count. -/
def count_total_csv_files (top : DirTree) (pattern : Option String)
    (bak_folder : String) (csv_mode : String) : Nat × List (String × DirTree) :=
  let direct_csv_files := glob_direct "" top
  if direct_csv_files ≠ [] then (direct_csv_files.length, [("", top)])
  else
    let subfolders := top.subdirs
    let subfolders := if pattern = some "underscore" then
        subfolders.filter (fun d => d.1.data.contains '_')
      else subfolders
    (sortByName subfolders).foldl (fun acc d =>
      let csv_files := if csv_mode = "any" then csv_files_any (d.1 ++ "/") d.2
        else match d.2.subdirs.find? (fun s => s.1 == bak_folder) with
          | some b => glob_direct (d.1 ++ "/" ++ bak_folder ++ "/") b.2
          | none => []
      if csv_files ≠ [] then (acc.1 + csv_files.length, acc.2 ++ [d]) else acc)
      (0, [])

/-- Model of the task construction of `analyze_all_subfolders`
(lines 578-621): after the early return on zero files, each folder from
discovery contributes its file list — but a folder that directly contains
CSV files contributes ONLY those direct files, the recursive (`"any"`) or
`bak`-subdirectory scan happening only otherwise.  Returns the ordered list
of file paths dispatched to the classifier. -/
def analyze_tasks (top : DirTree) (pattern : Option String)
    (bak_folder : String) (csv_mode : String) : List String :=
  let c := count_total_csv_files top pattern bak_folder csv_mode
  if c.1 = 0 then []
  else
    c.2.flatMap (fun d =>
      let pre := if d.1 = "" then "" else d.1 ++ "/"
      let direct_csv_files := glob_direct pre d.2
      if direct_csv_files ≠ [] then direct_csv_files
      else if csv_mode = "any" then csv_files_any pre d.2
      else match d.2.subdirs.find? (fun s => s.1 == bak_folder) with
        | some b => glob_direct (pre ++ bak_folder ++ "/") b.2
        | none => [])

/-- A classic-layout directory for the discovery theorems: no CSV files
directly in the root, one subfolder `sub1` holding `a.csv` directly and
`b.csv` inside a nested subdirectory. -/
def c7_top : DirTree :=
  .node [] [("sub1", .node ["a.csv"] [("nested", .node ["b.csv"] [])])]

theorem append_bak_ne (p : String) : p ++ ".bak" ≠ p := by
  intro h
  have hlen := congrArg (fun s : String => s.data.length) h
  simp only [String.data_append, List.length_append] at hlen
  simp at hlen

theorem convert_skip_step (decodeOf : String → Bytes → Option Text)
    (encodeOf : String → Text → Option Bytes) (p src target : String)
    (backup : Bool) (fs : FS)
    (hsrc : src = "unknown" ∨ src = "binary" ∨ startswith src "error" = true)
    (hlow : lower src ≠ lower target) :
    convert_folder_files decodeOf encodeOf [⟨p, src⟩] target true backup fs
        = (⟨1, 0, 1, 0, 0, [], []⟩, fs) ∧
      convert_folder_files decodeOf encodeOf [⟨p, src⟩] target false backup fs
        = (⟨1, 0, 0, 1, 0, [(p, "Cannot convert from " ++ src)], []⟩, fs) := by
  have hsrc' : src = "unknown" ∨ src = "binary" ∨ (startswith src "error" : Prop) := by
    rcases hsrc with h | h | h
    · exact Or.inl h
    · exact Or.inr (Or.inl h)
    · exact Or.inr (Or.inr (by simpa using h))
  constructor
  · simp [convert_folder_files, convert_folder_step, if_neg hlow, if_pos hsrc']
  · simp [convert_folder_files, convert_folder_step, convert_file_encoding,
      if_neg hlow, if_pos hsrc']

/-- C10: for every zero-byte file, classification returns the label
`unknown` with confidence 0 immediately, issuing no content read; the
result is the same for every statistical-detector oracle and every
parameter setting, so neither the detector nor any heuristic is invoked. -/
theorem C10_empty_file (chardet : Chardet) (sample_size : Nat)
    (do_second_pass : Bool) (second_pass_factor : Nat)
    (min_confidence_first_pass : ℚ) :
    detect_encoding chardet [] sample_size do_second_pass second_pass_factor
        min_confidence_first_pass = ⟨"unknown", 0, []⟩ := rfl

/-- C1 (code bug): a strict encode failure does not leave the original
file's bytes unmodified.  Converting the one-byte latin-1 file `0xE9` to
ascii: the decode succeeds, the `.bak` backup is written, then
`open(file_path, 'w')` truncates the file before any encoding is attempted,
the strict ascii encode of the decoded content fails, and the conversion is
recorded as a failure — with the file left truncated (empty) rather than
holding its original byte `0xE9`. -/
theorem C1_encode_failure_truncates :
    convert_file_encoding latin1_decode ascii_encode "ascii" "iso-8859-1" true
        "f.csv" [("f.csv", [0xE9])]
      = ((false, "Encode error"), [("f.csv", []), ("f.csv.bak", [0xE9])]) := by
  decide

/-- C2 counterexample: in a real (non-dry-run) conversion a file recorded
as `unknown` is not rewritten, but its outcome lands in the `failed`
counter and `failed_files` list with a "Cannot convert from unknown"
message — the `skipped` counter stays 0, refuting "recorded under the
corresponding skipped status". -/
theorem C2_counterexample :
    (convert_folder_files (fun _ => latin1_decode) (fun _ => ascii_encode)
        [⟨"f.csv", "unknown"⟩] "utf-8" false true [("f.csv", [1, 2])]).1
      = ⟨1, 0, 0, 1, 0, [("f.csv", "Cannot convert from unknown")], []⟩ := by
  decide

/-- C2 amended: for every file whose label is `unknown`, `binary` or starts
with `error` and is not case-insensitively equal to the target, conversion
leaves the filesystem untouched and the file is never counted as converted;
the statistics have only one undifferentiated `skipped` counter (no
`skipped_unknown`/`skipped_binary` split), incremented only in dry-run
mode, while a real conversion counts the file under `failed` with message
"Cannot convert from <label>". -/
theorem C2_amended (decodeOf : String → Bytes → Option Text)
    (encodeOf : String → Text → Option Bytes) (p src target : String)
    (backup : Bool) (fs : FS)
    (hsrc : src = "unknown" ∨ src = "binary" ∨ startswith src "error" = true)
    (hlow : lower src ≠ lower target) :
    convert_folder_files decodeOf encodeOf [⟨p, src⟩] target true backup fs
        = (⟨1, 0, 1, 0, 0, [], []⟩, fs) ∧
      convert_folder_files decodeOf encodeOf [⟨p, src⟩] target false backup fs
        = (⟨1, 0, 0, 1, 0, [(p, "Cannot convert from " ++ src)], []⟩, fs) :=
  convert_skip_step decodeOf encodeOf p src target backup fs hsrc hlow

/-- Witness for C2: the `unknown`-labelled file `f.csv` with target
`utf-8`. -/
theorem C2_amended_witness :
    convert_folder_files (fun _ => latin1_decode) (fun _ => ascii_encode)
        [⟨"f.csv", "unknown"⟩] "utf-8" true true [("f.csv", [1, 2])]
      = (⟨1, 0, 1, 0, 0, [], []⟩, [("f.csv", [1, 2])]) :=
  (C2_amended (fun _ => latin1_decode) (fun _ => ascii_encode) "f.csv" "unknown"
    "utf-8" true [("f.csv", [1, 2])] (Or.inl rfl) (by decide)).1

/-- C7 (code bug): on the classic layout `c7_top` in "any" mode (no CSV
files directly in the root), discovery counts 2 files — the recursive glob
set `[sub1/a.csv, sub1/nested/b.csv]` — but the task builder, seeing that
`sub1` directly contains a CSV file, dispatches only that direct file: the
nested `b.csv` is never classified and the up-front total 2 differs from
the 1 dispatched task. -/
theorem C7_count_vs_dispatch :
    (count_total_csv_files c7_top none "bak" "any").1 = 2 ∧
      csv_files_any "sub1/"
          (DirTree.node ["a.csv"] [("nested", DirTree.node ["b.csv"] [])])
        = ["sub1/a.csv", "sub1/nested/b.csv"] ∧
      analyze_tasks c7_top none "bak" "any" = ["sub1/a.csv"] := by
  refine ⟨by decide, by decide, by decide⟩

/-- C8 counterexample: a record labelled `binary` increments the folder's
detected count and the `binary` histogram entry, not the error count, so
the claim that "otherwise unusable" labels such as `binary` count toward
errors is false. -/
theorem C8_counterexample :
    fold_record ⟨0, 0, []⟩ "binary" = ⟨1, 0, [("binary", 1)]⟩ := by decide

/-- C8 amended: a record whose label is `unknown`, starts with `error`, or
is empty increments only the error count; every other record — `binary`
included — increments only the detected count and its histogram entry; each
record increments exactly one of the two counters, so after folding a list
of records from the zero state, detected + errors equals the number of
records folded. -/
theorem C8_amended :
    (∀ (res : FolderAgg) (enc : String),
        ((enc = "unknown" ∨ startswith enc "error" = true ∨ enc = "") →
          fold_record res enc = { res with errors := res.errors + 1 }) ∧
        ((enc ≠ "unknown" ∧ startswith enc "error" = false ∧ enc ≠ "") →
          fold_record res enc
            = { res with detected := res.detected + 1, encodings := bump res.encodings enc }) ∧
        (fold_record res enc).detected + (fold_record res enc).errors
          = res.detected + res.errors + 1) ∧
      ∀ (records : List String),
        (records.foldl fold_record ⟨0, 0, []⟩).detected
            + (records.foldl fold_record ⟨0, 0, []⟩).errors
          = records.length := by
  have hstep : ∀ (res : FolderAgg) (enc : String),
      (fold_record res enc).detected + (fold_record res enc).errors
        = res.detected + res.errors + 1 := by
    intro res enc
    unfold fold_record
    split
    · simp; omega
    · simp; omega
  have hgen : ∀ (records : List String) (res : FolderAgg),
      (records.foldl fold_record res).detected
          + (records.foldl fold_record res).errors
        = res.detected + res.errors + records.length := by
    intro records
    induction records with
    | nil => intro res; simp
    | cons a l ih =>
      intro res
      simp only [List.foldl_cons, List.length_cons]
      rw [ih (fold_record res a)]
      have := hstep res a
      omega
  refine ⟨fun res enc => ⟨?_, ?_, hstep res enc⟩, fun records => by
    simpa using hgen records ⟨0, 0, []⟩⟩
  · intro h
    unfold fold_record
    rw [if_neg]
    rintro ⟨h1, h2, h3⟩
    rcases h with h | h | h
    · exact h3 h
    · exact h2 (by simpa using h)
    · exact h1 h
  · rintro ⟨h1, h2, h3⟩
    unfold fold_record
    rw [if_pos ⟨h3, by simpa using h2, h1⟩]

/-- Witness for C8: a `utf-8` record is detected, an `unknown` record is an
error, both obtained from the amended theorem. -/
theorem C8_amended_witness :
    fold_record ⟨0, 0, []⟩ "utf-8" = ⟨1, 0, [("utf-8", 1)]⟩ ∧
      fold_record ⟨0, 0, []⟩ "unknown" = ⟨0, 1, []⟩ := by
  refine ⟨((C8_amended.1 ⟨0, 0, []⟩ "utf-8").2.1 (by decide)).trans (by decide),
    ((C8_amended.1 ⟨0, 0, []⟩ "unknown").1 (Or.inl rfl)).trans (by decide)⟩

/-- C9: the effective worker count is `min(requested, 2 × cpu, files)`
whenever the requested count, the cpu count and the task count are at least
1 (so the `max 1` floor is inactive), and the clamp notice is printed
exactly when the effective count is strictly below the requested count. -/
theorem C9_worker_clamp (requested cpu total_files : Nat)
    (hr : 1 ≤ requested) (hc : 1 ≤ cpu) (ht : 1 ≤ total_files) :
    (decide_workers (some requested) (some cpu) total_files).1
        = min requested (min (cpu * 2) total_files) ∧
      ((decide_workers (some requested) (some cpu) total_files).2 = true ↔
        (decide_workers (some requested) (some cpu) total_files).1 < requested) := by
  have hr' : 0 < requested := hr
  have hmin : 1 ≤ min requested (min (cpu * 2) total_files) :=
    le_min hr (le_min (by omega) ht)
  have h1 : (decide_workers (some requested) (some cpu) total_files).1
      = min requested (min (cpu * 2) total_files) := by
    unfold decide_workers
    simp only [Option.getD_some, if_pos hr']
    exact Nat.max_eq_right hmin
  refine ⟨h1, ?_⟩
  rw [h1]
  unfold decide_workers
  simp only [Option.getD_some, if_pos hr']
  exact decide_eq_true_iff

/-- Witness for C9: requesting 16 workers with 4 cores for 3 files yields 3
effective workers and the clamp notice. -/
theorem C9_worker_clamp_witness :
    (decide_workers (some 16) (some 4) 3).1 = 3 ∧
      (decide_workers (some 16) (some 4) 3).2 = true := by
  have h := C9_worker_clamp 16 4 3 (by decide) (by decide) (by decide)
  exact ⟨h.1.trans (by decide), h.2.mpr (by rw [h.1]; decide)⟩

/-- C3 counterexample: the file `DATA.CSV` (discovery matches `*.CSV`) is
converted with a backup at `DATA.CSV.bak`, but `rollback_backups` only
globs `*.csv.bak` (case-sensitively), restores nothing (restored = 0), and
the file keeps its converted bytes `[0xC3, 0xA9]` instead of its
pre-conversion byte `[0xE9]` — the backup is left in place. -/
theorem C3_counterexample :
    (convert_file_encoding latin1_decode utf8_encode "utf-8" "iso-8859-1" true
        "DATA.CSV" [("DATA.CSV", [0xE9])]).1.1 = true ∧
      rollback_backups (convert_file_encoding latin1_decode utf8_encode "utf-8"
          "iso-8859-1" true "DATA.CSV" [("DATA.CSV", [0xE9])]).2
        = ((0, 0), [("DATA.CSV", [0xC3, 0xA9]), ("DATA.CSV.bak", [0xE9])]) := by
  refine ⟨by decide, by decide⟩

/-- C3 amended: for a file whose backup lands at `<p>.bak` with a name the
case-sensitive rollback glob `*.csv.bak` matches (in particular any file
ending in lowercase `.csv`), a successful backup-enabled conversion followed
by rollback restores the file's exact pre-conversion bytes, by moving the
`.bak` file back over the current file; files matching `*.CSV` are excluded
(their backups are not matched, see the counterexample). -/
theorem C3_amended (decode : Bytes → Option Text) (encode : Text → Option Bytes)
    (tgt src p : String) (orig : Bytes) (txt : Text) (out : Bytes)
    (hdec : decode orig = some txt) (henc : encode txt = some out)
    (hlow : lower src ≠ lower tgt)
    (hsrc : ¬ (src = "unknown" ∨ src = "binary" ∨ startswith src "error" = true))
    (hbak : backup_path p = p ++ ".bak")
    (hmatch : endswith (p ++ ".bak") ".csv.bak" = true)
    (hpnm : endswith p ".csv.bak" = false)
    (hback : with_suffix (p ++ ".bak") "" = p) :
    (convert_file_encoding decode encode tgt src true p [(p, orig)]).1.1 = true ∧
      rollback_backups
          (convert_file_encoding decode encode tgt src true p [(p, orig)]).2
        = ((1, 0), [(p, orig)]) := by
  have hne := append_bak_ne p
  have hne' : p ≠ p ++ ".bak" := Ne.symm hne
  have hbne : ((p ++ ".bak") == p) = false := beq_eq_false_iff_ne.mpr hne
  have hbne' : (p == (p ++ ".bak")) = false := beq_eq_false_iff_ne.mpr hne'
  have hsrc' : ¬ (src = "unknown" ∨ src = "binary" ∨ (startswith src "error" : Prop)) := by
    simpa using hsrc
  have hconv : convert_file_encoding decode encode tgt src true p [(p, orig)]
      = ((true, "Converted from " ++ src ++ " to " ++ tgt),
          [(p, out), (p ++ ".bak", orig)]) := by
    unfold convert_file_encoding
    rw [if_neg hlow, if_neg hsrc']
    simp [fsLookup, fsSet, hdec, henc, hbak, hbne, hbne', hne, hne']
  have hroll : rollback_backups [(p, out), (p ++ ".bak", orig)] = ((1, 0), [(p, orig)]) := by
    unfold rollback_backups
    simp [hpnm, hmatch, fsLookup, fsDel, fsSet, hbne, hbne', hback, hne, hne']
  rw [hconv]
  exact ⟨rfl, hroll⟩

/-- Witness for C3: `a.csv` holding the latin-1 byte 0xE9 is converted to
utf-8 (bytes [0xC3, 0xA9]) with a backup, and rollback restores [0xE9]. -/
theorem C3_amended_witness :
    (convert_file_encoding latin1_decode utf8_encode "utf-8" "iso-8859-1" true
        "a.csv" [("a.csv", [0xE9])]).1.1 = true ∧
      rollback_backups (convert_file_encoding latin1_decode utf8_encode "utf-8"
          "iso-8859-1" true "a.csv" [("a.csv", [0xE9])]).2
        = ((1, 0), [("a.csv", [0xE9])]) :=
  C3_amended latin1_decode utf8_encode "utf-8" "iso-8859-1" "a.csv" [0xE9] [0xE9]
    [0xC3, 0xA9] (by decide) (by decide) (by decide) (by decide) (by decide)
    (by decide) (by decide) (by decide)

theorem isPrefixOf_take (p l : Bytes) (n : Nat) (h : p.length ≤ n) :
    p.isPrefixOf (l.take n) = p.isPrefixOf l := by
  have hiff : ∀ (q m : Bytes), q.isPrefixOf m = true ↔ q <+: m := by
    intro q m
    exact List.isPrefixOf_iff_prefix
  have htp : l.take n <+: l := List.take_prefix n l
  have hpt : p <+: l.take n ↔ p <+: l ∧ p.length ≤ n := List.prefix_take_iff
  cases hb : p.isPrefixOf l with
  | false =>
    cases hbt : p.isPrefixOf (l.take n) with
    | false => rfl
    | true =>
      have h2 : p <+: l := ((hiff p (l.take n)).mp hbt).trans htp
      have h3 := (hiff p l).mpr h2
      rw [hb] at h3
      cases h3
  | true =>
    exact (hiff p (l.take n)).mpr (hpt.mpr ⟨(hiff p l).mp hb, h⟩)

theorem detect_bom_take (l : Bytes) (n : Nat) (h : 4 ≤ n) :
    detect_bom (l.take n) = detect_bom l := by
  unfold detect_bom
  rw [isPrefixOf_take _ _ _ (by simp; omega), isPrefixOf_take _ _ _ (by simp; omega),
    isPrefixOf_take _ _ _ (by simp; omega), isPrefixOf_take _ _ _ (by simp; omega),
    isPrefixOf_take _ _ _ (by simp; omega)]

theorem detect_encoding_bom (chardet : Chardet) (file : Bytes) (sample_size : Nat)
    (do_second_pass : Bool) (second_pass_factor : Nat)
    (min_confidence_first_pass : ℚ) (enc : String) (hlen : ¬ (file.length = 0))
    (hbom : detect_bom (file.take (min sample_size file.length)) = some enc) :
    detect_encoding chardet file sample_size do_second_pass second_pass_factor
        min_confidence_first_pass
      = ⟨enc, 100, [(0, min sample_size file.length)]⟩ := by
  simp only [detect_encoding, hlen, if_false, hbom]

theorem detect_small_eq (chardet : Chardet) (file : Bytes) (sample_size : Nat)
    (do_second_pass : Bool) (second_pass_factor : Nat)
    (min_confidence_first_pass : ℚ) (hlen : 0 < file.length)
    (hsmall : file.length ≤ sample_size) (hbom : detect_bom file = none) :
    detect_encoding chardet file sample_size do_second_pass second_pass_factor
        min_confidence_first_pass
      = (if orUnknown (chardet file).1 ≠ "unknown" then
            ⟨orUnknown (chardet file).1, ((chardet file).2).getD 0 * 100, [(0, file.length)]⟩
          else
            match guess_utf16_no_bom file with
            | some g => ⟨g, 95, [(0, file.length)]⟩
            | none =>
              if is_mostly_ascii file then ⟨"ascii", 99, [(0, file.length)]⟩
              else if is_binary_like file then ⟨"binary", 100, [(0, file.length)]⟩
              else ⟨"unknown", 0, [(0, file.length)]⟩) := by
  have hlen' : ¬ (file.length = 0) := by omega
  have hmin : min sample_size file.length = file.length := Nat.min_eq_right hsmall
  simp only [detect_encoding, hlen', if_false, hmin, List.take_length, hbom,
    if_pos hsmall]

/-- C4: a file beginning with a standard BOM prefix (as recognized by
`detect_bom`, the longer UTF-32 patterns taking precedence over the UTF-16
prefixes they extend) is classified as exactly that encoding with
confidence 100, for every file size and any content after the BOM, every
statistical-detector oracle (the result does not depend on `chardet`, so no
statistical detection is involved), and every sample size of at least 4
bytes (the default is 65536); the only I/O is the single head read. -/
theorem C4_bom_detection (chardet : Chardet) (file : Bytes) (enc : String)
    (sample_size : Nat) (do_second_pass : Bool) (second_pass_factor : Nat)
    (min_confidence_first_pass : ℚ) (h4 : 4 ≤ sample_size)
    (hbom : detect_bom file = some enc) :
    detect_encoding chardet file sample_size do_second_pass second_pass_factor
        min_confidence_first_pass
      = ⟨enc, 100, [(0, min sample_size file.length)]⟩ := by
  have hnil : file ≠ [] := by
    intro h
    rw [h, (by rfl : detect_bom [] = (none : Option String))] at hbom
    cases hbom
  have hlen : ¬ (file.length = 0) := fun h => hnil (List.length_eq_zero.mp h)
  have hbom' : detect_bom (file.take (min sample_size file.length)) = some enc := by
    rcases Nat.le_total file.length sample_size with hle | hle
    · rw [Nat.min_eq_right hle, List.take_length, hbom]
    · rw [Nat.min_eq_left hle, detect_bom_take _ _ h4, hbom]
  exact detect_encoding_bom chardet file sample_size do_second_pass
    second_pass_factor min_confidence_first_pass enc hlen hbom'

/-- Witness for C4: a 4-byte file starting with the UTF-8 BOM is classified
`utf-8-sig`@100 with a single 4-byte read, for an oracle that would answer
nothing. -/
theorem C4_bom_detection_witness :
    detect_encoding (fun _ => (none, none)) [0xEF, 0xBB, 0xBF, 0x41] 65536 true 4
        (70 / 100) = ⟨"utf-8-sig", 100, [(0, 4)]⟩ := by
  have h := C4_bom_detection (fun _ => (none, none)) [0xEF, 0xBB, 0xBF, 0x41]
    "utf-8-sig" 65536 true 4 (70 / 100) (by decide) (by decide)
  exact h.trans (by rfl)

/-- C6: for every file that fits in one sample (size at most the sample
size), classification issues at most one content read (also for empty and
BOM-carrying files); and when step 2 is reached (nonempty file, no BOM) the
whole file is that single head read and the statistical detector's answer
is final unless it is unknown, in which case the UTF-16-without-BOM,
mostly-ASCII and binary-like heuristics apply directly in that order with
(unknown, 0) as the final fallback — no tail read and no deeper second
pass occur. -/
theorem C6_small_file (chardet : Chardet) (file : Bytes) (sample_size : Nat)
    (do_second_pass : Bool) (second_pass_factor : Nat)
    (min_confidence_first_pass : ℚ) (hsmall : file.length ≤ sample_size) :
    (detect_encoding chardet file sample_size do_second_pass second_pass_factor
        min_confidence_first_pass).reads.length ≤ 1 ∧
      (0 < file.length → detect_bom file = none →
        detect_encoding chardet file sample_size do_second_pass second_pass_factor
            min_confidence_first_pass
          = (if orUnknown (chardet file).1 ≠ "unknown" then
                ⟨orUnknown (chardet file).1, ((chardet file).2).getD 0 * 100,
                  [(0, file.length)]⟩
              else
                match guess_utf16_no_bom file with
                | some g => ⟨g, 95, [(0, file.length)]⟩
                | none =>
                  if is_mostly_ascii file then ⟨"ascii", 99, [(0, file.length)]⟩
                  else if is_binary_like file then ⟨"binary", 100, [(0, file.length)]⟩
                  else ⟨"unknown", 0, [(0, file.length)]⟩)) := by
  constructor
  · by_cases h0 : file.length = 0
    · have hfile : file = [] := List.length_eq_zero.mp h0
      subst hfile
      simp [detect_encoding]
    · cases hb : detect_bom (file.take (min sample_size file.length)) with
      | some e =>
        rw [detect_encoding_bom chardet file sample_size do_second_pass
          second_pass_factor min_confidence_first_pass e h0 hb]
        simp
      | none =>
        have htake : file.take (min sample_size file.length) = file := by
          rw [Nat.min_eq_right hsmall, List.take_length]
        have hbf : detect_bom file = none := by rw [← htake]; exact hb
        rw [detect_small_eq chardet file sample_size do_second_pass
          second_pass_factor min_confidence_first_pass (by omega) hsmall hbf]
        by_cases ha : orUnknown (chardet file).1 ≠ "unknown"
        · simp [ha]
        · rcases hg : guess_utf16_no_bom file with _ | g
          · by_cases hma : is_mostly_ascii file
            · simp [ha, hg, hma]
            · by_cases hbl : is_binary_like file <;> simp [ha, hg, hma, hbl]
          · simp [ha, hg]
  · intro h0 hbom
    exact detect_small_eq chardet file sample_size do_second_pass
      second_pass_factor min_confidence_first_pass h0 hsmall hbom

/-- Witness for C6: the two-byte ASCII file [65, 66] with an oracle that
answers unknown reads once and falls through the heuristics to ascii@99. -/
theorem C6_small_file_witness :
    ([65, 66] : Bytes).length ≤ 65536 ∧
      (detect_encoding (fun _ => (none, none)) [65, 66] 65536 true 4
          (70 / 100)).reads.length ≤ 1 ∧
      detect_encoding (fun _ => (none, none)) [65, 66] 65536 true 4 (70 / 100)
        = ⟨"ascii", 99, [(0, 2)]⟩ := by
  have h := C6_small_file (fun _ => (none, none)) [65, 66] 65536 true 4 (70 / 100)
    (by decide)
  exact ⟨by decide, h.1, (h.2 (by decide) (by decide)).trans (by rfl)⟩

/-- C5 counterexample: the 100-byte file of 30 NUL bytes followed by 70 'A'
bytes has no BOM and 30% zero bytes (`is_binary_like` holds), yet — with
the statistical detector answering unknown — classification returns
ascii@99, not binary: a NUL byte is below 0x80, so the sample is 100% ASCII
and the mostly-ASCII check fires before the binary-like check is reached. -/
theorem C5_counterexample :
    detect_bom (List.replicate 30 0 ++ List.replicate 70 65) = none ∧
      is_binary_like (List.replicate 30 0 ++ List.replicate 70 65) = true ∧
      detect_encoding (fun _ => (none, none))
          (List.replicate 30 0 ++ List.replicate 70 65) 65536 true 4 (70 / 100)
        = ⟨"ascii", 99, [(0, 100)]⟩ := by
  refine ⟨by decide, by decide, by rfl⟩

/-- C5 amended: a file with no recognized BOM whose sample the statistical
detector labels unknown, which fails the UTF-16-without-BOM parity
heuristic, whose sample is NOT at least 98% ASCII bytes, and which has at
least 30% NUL bytes, is classified with the terminal label binary at
confidence 100 (stated here for files that fit in one sample, as in the
claim's scenario); and a binary-labelled file is never rewritten and never
counted as converted by a requested conversion — a dry run counts it under
the single undifferentiated `skipped` counter (there is no `skipped_binary`
status), while a real conversion counts it under `failed`. -/
theorem C5_amended (chardet : Chardet) (file : Bytes) (sample_size : Nat)
    (do_second_pass : Bool) (second_pass_factor : Nat)
    (min_confidence_first_pass : ℚ) (hlen : 0 < file.length)
    (hsmall : file.length ≤ sample_size) (hbom : detect_bom file = none)
    (hunk : orUnknown (chardet file).1 = "unknown")
    (hutf16 : guess_utf16_no_bom file = none)
    (hascii : is_mostly_ascii file = false) (hbin : is_binary_like file = true) :
    detect_encoding chardet file sample_size do_second_pass second_pass_factor
        min_confidence_first_pass = ⟨"binary", 100, [(0, file.length)]⟩ ∧
      ∀ (decodeOf : String → Bytes → Option Text)
        (encodeOf : String → Text → Option Bytes) (p target : String)
        (backup : Bool) (fs : FS), lower "binary" ≠ lower target →
          convert_folder_files decodeOf encodeOf [⟨p, "binary"⟩] target true backup fs
              = (⟨1, 0, 1, 0, 0, [], []⟩, fs) ∧
            convert_folder_files decodeOf encodeOf [⟨p, "binary"⟩] target false backup fs
              = (⟨1, 0, 0, 1, 0, [(p, "Cannot convert from binary")], []⟩, fs) := by
  constructor
  · rw [detect_small_eq chardet file sample_size do_second_pass second_pass_factor
      min_confidence_first_pass hlen hsmall hbom, hunk]
    simp [hutf16, hascii, hbin]
  · intro decodeOf encodeOf p target backup fs hlow
    have h := convert_skip_step decodeOf encodeOf p "binary" target backup fs
      (Or.inr (Or.inl rfl)) hlow
    exact ⟨h.1, h.2.trans (by rfl)⟩

/-- Witness for C5: a 10-byte BOM-less file with three NULs and seven 0xFF
bytes (30% NUL, 30% ASCII) is classified binary@100 under an
unknown-answering oracle, and its real conversion to utf-8 is counted as
failed with "Cannot convert from binary". -/
theorem C5_amended_witness :
    detect_encoding (fun _ => (none, none))
        [0, 0, 0, 255, 255, 255, 255, 255, 255, 255] 65536 true 4 (70 / 100)
        = ⟨"binary", 100, [(0, 10)]⟩ ∧
      convert_folder_files (fun _ => latin1_decode) (fun _ => ascii_encode)
          [⟨"b.csv", "binary"⟩] "utf-8" false true []
        = (⟨1, 0, 0, 1, 0, [("b.csv", "Cannot convert from binary")], []⟩, []) := by
  have h := C5_amended (fun _ => (none, none))
    [0, 0, 0, 255, 255, 255, 255, 255, 255, 255] 65536 true 4 (70 / 100)
    (by decide) (by decide) (by decide) (by rfl) (by decide) (by decide) (by decide)
  exact ⟨h.1, (h.2 (fun _ => latin1_decode) (fun _ => ascii_encode) "b.csv" "utf-8"
    true [] (by decide)).2⟩
